import Mathlib

/-!
Shallow embedding of the wakatime-stats gist updater (src/index.ts).

Numbers are modelled as rationals: JS numbers are IEEE doubles, but every
computation the properties below touch is exact in ℚ.  JS exceptions are
modelled with Option/Except: a `none` result of a pure function marks an
exception thrown inside it and propagating out.  The two HTTP services are
modelled as explicit arguments (a transport function for the WakaTime API,
an Except value for the gist GET), and the writes as the PATCH bodies the
run issues, in order.
-/

namespace Waka

/-- A language entry of the WakaTime response: `{ name, total_seconds }`. -/
structure Language where
  name : String
  total_seconds : ℚ
  deriving DecidableEq, Repr

/-- The WakaTime stats record: `{ languages }`. -/
structure WakaTimeStats where
  languages : List Language
  deriving DecidableEq, Repr

/-- One bar style of `PROGRESS_STYLES`: `{ filled, empty, blocks }`. -/
structure ProgressStyle where
  filled : String
  empty : String
  blocks : ℕ
  deriving DecidableEq, Repr

/-- The environment variables the script reads from `process.env`; `none`
models an unset variable. -/
structure Env where
  PROGRESS_STYLE : Option String
  TIME_RANGE : Option String
  deriving DecidableEq, Repr

/-- JS `x || dflt` on an optional string: `undefined` and `""` are falsy. -/
def jsOrElse (s : Option String) (dflt : String) : String :=
  match s with
  | none => dflt
  | some v => if v = "" then dflt else v

/-- `PROGRESS_STYLES` (src/index.ts lines 39-43) as a key lookup; `none` is
a missing key. -/
def PROGRESS_STYLES (key : String) : Option ProgressStyle :=
  if key = "arrow" then some ⟨"▶", "▷", 16⟩
  else if key = "hash" then some ⟨"#", "-", 25⟩
  else if key = "default" then some ⟨"▰", "▱", 14⟩
  else none

/-- The style key computed on line 73:
`process.env.PROGRESS_STYLE?.toLowerCase() || 'default'`. -/
def styleKey (env : Env) : String :=
  jsOrElse (env.PROGRESS_STYLE.map String.toLower) "default"

/-- `(process.env.TIME_RANGE as TimeRange) || 'last_7_days'` (lines 91 and
120): the TS cast does not validate, so any non-empty string passes
through unchanged. -/
def resolveTimeRange (env : Env) : String :=
  jsOrElse env.TIME_RANGE "last_7_days"

/-- `WAKATIME_CONFIG.baseUrl` (line 32). -/
def wakatimeBaseUrl : String := "https://wakatime.com/api/v1/users/current"

/-- `WAKATIME_CONFIG.endpoints.stats` (line 34). -/
def statsEndpoint (range : String) : String :=
  wakatimeBaseUrl ++ "/stats/" ++ range

/-- `WAKATIME_CONFIG.endpoints.summaries` (line 35). -/
def summariesEndpoint (range : String) : String :=
  wakatimeBaseUrl ++ "/summaries?range=" ++ range

/-- `getWakaTimeEndpoint` (line 59). -/
def getWakaTimeEndpoint (range : String) : String :=
  if range = "yesterday" then summariesEndpoint "yesterday" else statsEndpoint range

/-- `GIST_TITLES` (lines 45-50) as a key lookup. -/
def GIST_TITLES (range : String) : Option String :=
  if range = "yesterday" then some "☕ Yesterday Coding Stats"
  else if range = "last_7_days" then some "☕ Last 7 Days Coding Stats"
  else if range = "last_30_days" then some "☕ Last 30 Days Coding Stats"
  else if range = "last_year" then some "☕ Last Year Coding Stats"
  else none

/-- `getGistTitle` (line 62): `GIST_TITLES[range] || GIST_TITLES.last_7_days`
(all titles are non-empty strings, so JS falsiness of the lookup is
exactly a missing key). -/
def getGistTitle (range : String) : String :=
  (GIST_TITLES range).getD "☕ Last 7 Days Coding Stats"

/-- JS `Math.round`: round half toward positive infinity. -/
def jsRound (q : ℚ) : ℤ := ⌊q + 1 / 2⌋

/-- JS truncation toward zero, as used by the `%` operator. -/
def jsTrunc (q : ℚ) : ℤ := if 0 ≤ q then ⌊q⌋ else ⌈q⌉

/-- JS remainder `a % b` (takes the sign of the dividend). -/
def jsMod (a b : ℚ) : ℚ := a - b * jsTrunc (a / b)

/-- JS `String.prototype.repeat`. -/
def jsRepeat (s : String) : ℕ → String
  | 0 => ""
  | n + 1 => s ++ jsRepeat s n

/-- JS `String.prototype.padEnd` with the default space padding: pads to
the target length and never truncates. -/
def jsPadEnd (s : String) (n : ℕ) : String :=
  s ++ ⟨List.replicate (n - s.data.length) ' '⟩

/-- JS `String.prototype.trim`, spelled out on the character list. -/
def jsTrim (s : String) : String :=
  ⟨((s.data.dropWhile Char.isWhitespace).reverse.dropWhile Char.isWhitespace).reverse⟩

/-- JS `Number.prototype.toFixed(1)`: nearest multiple of 1/10, ties toward
the larger value. -/
def toFixed1 (q : ℚ) : String :=
  let n : ℤ := ⌊q * 10 + 1 / 2⌋
  toString (n / 10) ++ "." ++ toString (n % 10)

/-- `formatDuration` (lines 65-69).  The template literal renders a part
only when the number is truthy (non-zero); `.trim()` strips the trailing
space left by the hours part; `|| '0 mins'` replaces an empty result. -/
def formatDuration (seconds : ℚ) : String :=
  let hours : ℤ := ⌊seconds / 3600⌋
  let minutes : ℤ := ⌊jsMod seconds 3600 / 60⌋
  let rendered : String :=
    (if hours = 0 then "" else toString hours ++ " hrs ") ++
      (if minutes = 0 then "" else toString minutes ++ " mins")
  let trimmed := jsTrim rendered
  if trimmed = "" then "0 mins" else trimmed

/-- `createProgressBar` (lines 72-76).  A `none` result models a thrown
exception: either the TypeError raised when the configured style key
misses `PROGRESS_STYLES` (the `|| 'default'` applies to the key, not to
the lookup result), or the RangeError `String.repeat` raises when one of
the two repeat counts is negative, i.e. when the rounded filled count
falls outside [0, blocks] (a percentage outside [0, 100]).  Inside the
guard both counts are non-negative, so `Int.toNat` and the truncated
ℕ-subtraction agree exactly with the JS arithmetic. -/
def createProgressBar (env : Env) (percentage : ℚ) : Option String :=
  match PROGRESS_STYLES (styleKey env) with
  | none => none
  | some style =>
    let filled : ℤ := jsRound (percentage / 100 * style.blocks)
    if filled < 0 ∨ (style.blocks : ℤ) < filled then none
    else some (jsRepeat style.filled filled.toNat ++
      jsRepeat style.empty (style.blocks - filled.toNat))

/-- The reduce on line 83: `reduce((sum, l) => sum + l.total_seconds, 0)`. -/
def sumSeconds (langs : List Language) : ℚ :=
  langs.foldl (fun sum l => sum + l.total_seconds) 0

/-- The `percentage` constant of line 83 for one entry:
`(lang.total_seconds / ` sum over the FULL language list `) * 100`.
Caution: ℚ division is total (`q / 0 = 0`), while the program computes
`0 / 0 = NaN` on an all-zero snapshot and then renders an empty bar and
a literal `NaN%`.  ℚ cannot represent NaN, so every theorem below that
relates this value to the rendered output carries a positive-sum
hypothesis confining it to the region where the embedding is exact. -/
def displayedPercentage (stats : WakaTimeStats) (lang : Language) : ℚ :=
  lang.total_seconds / sumSeconds stats.languages * 100

/-- JS `Array.prototype.map` with a callback that may throw: a `none` from
the callback propagates as the result. -/
def mapOrThrow (f : α → Option β) : List α → Option (List β)
  | [] => some []
  | a :: l =>
    match f a with
    | none => none
    | some b => (mapOrThrow f l).map (fun bs => b :: bs)

/-- `formatStats` (lines 79-86): `slice(0, 5)`, one line per entry, joined
with `'\n'`.  `none` models the TypeError escaping from
`createProgressBar`. -/
def formatStats (env : Env) (stats : WakaTimeStats) : Option String :=
  (mapOrThrow
      (fun lang =>
        (createProgressBar env (displayedPercentage stats lang)).map
          (fun bar =>
            jsPadEnd lang.name 10 ++ " " ++ jsPadEnd (formatDuration lang.total_seconds) 14 ++
              " " ++ bar ++ "  " ++ toFixed1 (displayedPercentage stats lang) ++ "%"))
      (stats.languages.take 5)).map
    (fun lines => String.intercalate "\n" lines)

/-- The two JSON shapes the WakaTime API can answer with (the
`WakaTimeResponse` / `SummaryResponse` union): the `data` field is either
one stats record or a list of daily summaries. -/
inductive WakaPayload where
  | statsData (stats : WakaTimeStats)
  | summaryData (summaries : List WakaTimeStats)
  deriving DecidableEq, Repr

/-- `fetchWakaTimeStats` (lines 89-111).  `transport` maps the requested
URL to the axios outcome; the catch block turns any failure into `none`
(null).  In the `yesterday` branch the payload is read as a
SummaryResponse: `data[0]?.languages || []`; indexing `[0]` on the
object-shaped payload yields `undefined`, hence `[]`.  In the other
branch it is read as a WakaTimeResponse; a list-shaped payload there is a
type confusion that cannot occur when the transport honours the endpoint
contract (every theorem below pins the payload shape), modelled as an
empty record. -/
def fetchWakaTimeStats (env : Env)
    (transport : String → Except String WakaPayload) : Option WakaTimeStats :=
  let timeRange := resolveTimeRange env
  match transport (getWakaTimeEndpoint timeRange) with
  | .error _ => none
  | .ok data =>
    if timeRange = "yesterday" then
      some ⟨match data with
            | .summaryData summaries => ((summaries.head?).map WakaTimeStats.languages).getD []
            | .statsData _ => []⟩
    else
      match data with
      | .statsData stats => some stats
      | .summaryData _ => some ⟨[]⟩

/-- One file of the gist GET response. -/
structure GistFile where
  filename : String
  content : String
  deriving DecidableEq, Repr

/-- One file entry of a PATCH body: an optional new filename, and the
content sent. -/
structure GistPatchFile where
  new_filename : Option String
  content : String
  deriving DecidableEq, Repr

/-- The body of one PATCH request to the gist API. -/
structure PatchBody where
  files : List (String × GistPatchFile)
  deriving DecidableEq, Repr

/-- `fetchGistFilename` (lines 114-146).  The argument is the axios GET
outcome, the `files` record as an association list in key order
(`Object.keys(data.files)[0]` is the head key).  On success the result
carries the PATCH bodies issued (the rename, when the first filename
differs from the resolved title) and the returned filename; `.error`
carries the message re-thrown by the catch block.  JS falsiness of the
first key (`""` is falsy, like `undefined`) is modelled explicitly. -/
def fetchGistFilename (env : Env)
    (gist : Except String (List (String × GistFile))) :
    Except String (List PatchBody × String) :=
  match gist with
  | .error msg => .error msg
  | .ok files =>
    let newFilename := getGistTitle (resolveTimeRange env)
    match files.head? with
    | none => .error "No files found in the gist"
    | some (oldFilename, file) =>
      if oldFilename = "" then .error "No files found in the gist"
      else if oldFilename ≠ newFilename then
        .ok ([⟨[(oldFilename, ⟨some newFilename, file.content⟩)]⟩], newFilename)
      else .ok ([], newFilename)

/-- The placeholder literal of line 150. -/
def noStatsPlaceholder : String := "No WakaTime stats available"

/-- `updateGist` (lines 149-162): the PATCH body it sends.  The content is
computed on line 150, before the try block, so a `none` from
`formatStats` (the style TypeError) escapes `updateGist`, modelled as
`none`; a failure of the PATCH transport itself is caught and swallowed,
so the body is the whole observable behaviour. -/
def updateGist (env : Env) (stats : Option WakaTimeStats) (filename : String) :
    Option PatchBody :=
  match stats with
  | none => some ⟨[(filename, ⟨none, noStatsPlaceholder⟩)]⟩
  | some s => (formatStats env s).map (fun content => ⟨[(filename, ⟨none, content⟩)]⟩)

/-- The observable outcome of one run: the PATCH bodies issued in order,
and whether the top-level catch fired (with the message it logged; the
exact TypeError message text is not modelled). -/
inductive RunOutcome where
  | completed (patches : List PatchBody)
  | failed (patches : List PatchBody) (msg : String)
  deriving DecidableEq, Repr

/-- `main` (lines 165-176): stats fetch and gist locate run under
`Promise.all` (a locator error rejects it, so no content write happens),
then `updateGist` runs with both results. -/
def main (env : Env) (transport : String → Except String WakaPayload)
    (gist : Except String (List (String × GistFile))) : RunOutcome :=
  let stats := fetchWakaTimeStats env transport
  match fetchGistFilename env gist with
  | .error msg => .failed [] msg
  | .ok (renamePatches, filename) =>
    match updateGist env stats filename with
    | none => .failed renamePatches "TypeError: style lookup failed"
    | some body => .completed (renamePatches ++ [body])

/-- The bar string for an already resolved style: the body of
`createProgressBar` after the style lookup, used to state the formatter
properties. -/
def specBar (st : ProgressStyle) (p : ℚ) : String :=
  jsRepeat st.filled ((jsRound (p / 100 * st.blocks)).toNat) ++
    jsRepeat st.empty (st.blocks - (jsRound (p / 100 * st.blocks)).toNat)

/-- One formatter line as the spec describes it, with the amended name
column: padded with spaces to a width of at least 10, never truncated. -/
def specLine (st : ProgressStyle) (stats : WakaTimeStats) (lang : Language) : String :=
  jsPadEnd lang.name 10 ++ " " ++ jsPadEnd (formatDuration lang.total_seconds) 14 ++ " " ++
    specBar st (displayedPercentage stats lang) ++ "  " ++
    toFixed1 (displayedPercentage stats lang) ++ "%"

/-- The formatter as the spec describes it (amended claim C6): at most the
first five entries in their existing order, one line each, joined by
single newlines. -/
def formatStatsSpec (st : ProgressStyle) (stats : WakaTimeStats) : String :=
  String.intercalate "\n" ((stats.languages.take 5).map (specLine st stats))

/-- One formatter line under claim C6 exactly as stated: the name padded
AND truncated to a fixed 10-character column. -/
def truncatedLine (st : ProgressStyle) (stats : WakaTimeStats) (lang : Language) : String :=
  (jsPadEnd lang.name 10).take 10 ++ " " ++ jsPadEnd (formatDuration lang.total_seconds) 14 ++
    " " ++ specBar st (displayedPercentage stats lang) ++ "  " ++
    toFixed1 (displayedPercentage stats lang) ++ "%"

/-- The formatter under claim C6 exactly as stated (fixed 10-character
name column). -/
def formatStatsClaim6 (st : ProgressStyle) (stats : WakaTimeStats) : String :=
  String.intercalate "\n" ((stats.languages.take 5).map (truncatedLine st stats))

/-- An environment with both variables unset. -/
def envDefault : Env := ⟨none, none⟩

/-- A six-language snapshot with equal times (3600 seconds each). -/
def sixEven : WakaTimeStats :=
  ⟨[⟨"a", 3600⟩, ⟨"b", 3600⟩, ⟨"c", 3600⟩, ⟨"d", 3600⟩, ⟨"e", 3600⟩, ⟨"f", 3600⟩]⟩

/-- A two-language snapshot with equal times. -/
def twoEven : WakaTimeStats := ⟨[⟨"A", 3600⟩, ⟨"B", 3600⟩]⟩

/-- A snapshot whose only language name is 16 characters long. -/
def longName : WakaTimeStats := ⟨[⟨"abcdefghijklmnop", 3600⟩]⟩

/-! ### Helper lemmas -/

lemma string_empty_append (s : String) : "" ++ s = s := rfl

lemma string_append_empty (s : String) : s ++ "" = s := by
  cases s with
  | mk data => show String.mk (data ++ []) = String.mk data
               rw [List.append_nil]

lemma string_append_assoc (a b c : String) : (a ++ b) ++ c = a ++ (b ++ c) := by
  cases a with
  | mk x =>
    cases b with
    | mk y =>
      cases c with
      | mk z =>
        show String.mk ((x ++ y) ++ z) = String.mk (x ++ (y ++ z))
        rw [List.append_assoc]

lemma string_data_append (s t : String) : (s ++ t).data = s.data ++ t.data := rfl

lemma string_ne_empty (s : String) (c : Char) (cs : List Char) (h : s.data = c :: cs) :
    s ≠ "" := by
  intro he
  rw [he] at h
  exact List.noConfusion h

lemma ratFloorNatDiv (a b : ℕ) : ⌊(a : ℚ) / (b : ℚ)⌋ = (a / b : ℕ) := by
  have h1 : ((a : ℚ)) = ((a : ℤ) : ℚ) := by push_cast; ring
  have h2 : ⌊((a : ℤ) : ℚ) / (b : ℚ)⌋ = (a : ℤ) / (b : ℤ) := Rat.floor_intCast_div_natCast a b
  rw [h1, h2]
  exact (Int.ofNat_tdiv a b).symm

lemma getGistTitle_ne_empty (range : String) : getGistTitle range ≠ "" := by
  unfold getGistTitle GIST_TITLES
  split_ifs <;> decide

lemma mapOrThrow_eq_map (f : α → Option β) (g : α → β) (l : List α)
    (h : ∀ a ∈ l, f a = some (g a)) : mapOrThrow f l = some (l.map g) := by
  induction l with
  | nil => rfl
  | cons a t ih =>
    simp only [mapOrThrow, h a (by simp)]
    rw [ih (fun x hx => h x (by simp [hx]))]
    rfl

lemma digitChar_not_ws (k : ℕ) : (Nat.digitChar k).isWhitespace = false := by
  match k with
  | 0 | 1 | 2 | 3 | 4 | 5 | 6 | 7 | 8 | 9 | 10 | 11 | 12 | 13 | 14 | 15 => decide
  | n + 16 =>
    unfold Nat.digitChar
    repeat rw [if_neg (by omega)]
    decide

lemma toDigitsCore_ne_nil (b : ℕ) (fuel : ℕ) (n : ℕ) (acc : List Char) (hacc : acc ≠ []) :
    Nat.toDigitsCore b fuel n acc ≠ [] := by
  induction fuel generalizing n acc with
  | zero => simpa [Nat.toDigitsCore] using hacc
  | succ f ih =>
    simp only [Nat.toDigitsCore]
    split
    · simp
    · exact ih _ _ (by simp)

lemma toDigits_ne_nil (n : ℕ) : Nat.toDigits 10 n ≠ [] := by
  unfold Nat.toDigits
  simp only [Nat.toDigitsCore]
  split
  · simp
  · exact toDigitsCore_ne_nil 10 n (n / 10) _ (by simp)

lemma toDigitsCore_not_ws (b : ℕ) (fuel : ℕ) (n : ℕ) (acc : List Char)
    (hacc : ∀ c ∈ acc, c.isWhitespace = false) :
    ∀ c ∈ Nat.toDigitsCore b fuel n acc, c.isWhitespace = false := by
  induction fuel generalizing n acc with
  | zero => simpa [Nat.toDigitsCore] using hacc
  | succ f ih =>
    intro c hc
    simp only [Nat.toDigitsCore] at hc
    split at hc
    · rcases List.mem_cons.mp hc with h | h
      · subst h; exact digitChar_not_ws _
      · exact hacc c h
    · refine ih _ _ ?_ c hc
      intro x hx
      rcases List.mem_cons.mp hx with h | h
      · subst h; exact digitChar_not_ws _
      · exact hacc x h

lemma natRepr_head (k : ℕ) :
    ∃ c cs, (Nat.repr k).data = c :: cs ∧ c.isWhitespace = false := by
  obtain ⟨c, cs, hc⟩ := List.exists_cons_of_ne_nil (toDigits_ne_nil k)
  refine ⟨c, cs, hc, ?_⟩
  exact toDigitsCore_not_ws 10 (k + 1) k [] (by simp) c
    (by rw [show Nat.toDigitsCore 10 (k + 1) k [] = Nat.toDigits 10 k from rfl, hc]; simp)

lemma natRepr_head_toString (m : ℕ) :
    ∃ c cs, (toString m).data = c :: cs ∧ c.isWhitespace = false := natRepr_head m

lemma toString_intCast_nat (m : ℕ) : toString ((m : ℕ) : ℤ) = toString m := rfl

lemma dropWhile_ws_cons (c : Char) (t : List Char) (h : c.isWhitespace = false) :
    List.dropWhile Char.isWhitespace (c :: t) = c :: t := by
  simp [List.dropWhile_cons, h]

lemma headNotWs_append (s t : String)
    (h : ∃ c cs, s.data = c :: cs ∧ c.isWhitespace = false) :
    ∃ c cs, (s ++ t).data = c :: cs ∧ c.isWhitespace = false := by
  obtain ⟨c, cs, hc, hw⟩ := h
  exact ⟨c, cs ++ t.data, by rw [string_data_append, hc]; rfl, hw⟩

lemma jsTrim_eq_self (s : String)
    (hhead : ∃ c cs, s.data = c :: cs ∧ c.isWhitespace = false)
    (hlast : ∃ c cs, s.data.reverse = c :: cs ∧ c.isWhitespace = false) :
    jsTrim s = s := by
  obtain ⟨c, cs, hc, hw⟩ := hhead
  obtain ⟨d, ds, hd, hw2⟩ := hlast
  unfold jsTrim
  rw [hc, dropWhile_ws_cons _ _ hw, ← hc, hd, dropWhile_ws_cons _ _ hw2, ← hd,
    List.reverse_reverse]

lemma lastNotWs_mins (s : String) :
    ∃ c cs, (s ++ " mins").data.reverse = c :: cs ∧ c.isWhitespace = false := by
  refine ⟨'s', ['n', 'i', 'm', ' '] ++ s.data.reverse, ?_, rfl⟩
  rw [string_data_append, List.reverse_append]
  rfl

lemma jsTrim_mins (s : String)
    (hhead : ∃ c cs, s.data = c :: cs ∧ c.isWhitespace = false) :
    jsTrim (s ++ " mins") = s ++ " mins" :=
  jsTrim_eq_self _ (headNotWs_append s _ hhead) (lastNotWs_mins s)

lemma jsTrim_hrs (s : String)
    (hhead : ∃ c cs, s.data = c :: cs ∧ c.isWhitespace = false) :
    jsTrim (s ++ " hrs ") = s ++ " hrs" := by
  obtain ⟨c, cs, hc, hw⟩ := hhead
  have w1 : (' ' : Char).isWhitespace = true := rfl
  have w2 : ('s' : Char).isWhitespace = false := rfl
  unfold jsTrim
  rw [string_data_append, hc]
  rw [show (c :: cs) ++ (" hrs " : String).data = c :: (cs ++ [' ', 'h', 'r', 's', ' ']) from rfl]
  rw [dropWhile_ws_cons _ _ hw]
  rw [show (c :: (cs ++ [' ', 'h', 'r', 's', ' '])).reverse
      = ' ' :: 's' :: 'r' :: 'h' :: ' ' :: (cs.reverse ++ [c]) from by
    simp [List.reverse_append]]
  rw [List.dropWhile_cons, w1]
  simp only [if_true]
  rw [dropWhile_ws_cons _ _ w2]
  rw [show ('s' :: 'r' :: 'h' :: ' ' :: (cs.reverse ++ [c])).reverse
      = (c :: cs) ++ [' ', 'h', 'r', 's'] from by
    simp [List.reverse_append]]
  rw [show s ++ " hrs" = String.mk (s.data ++ [' ', 'h', 'r', 's']) from rfl, hc]

lemma jsRound_bar_bounds (p : ℚ) (b : ℕ) (h0 : 0 ≤ p) (h1 : p ≤ 100) :
    0 ≤ jsRound (p / 100 * b) ∧ jsRound (p / 100 * b) ≤ (b : ℤ) := by
  have hq0 : (0 : ℚ) ≤ p / 100 * b := by positivity
  constructor
  · unfold jsRound
    exact Int.le_floor.mpr (by push_cast; linarith)
  · unfold jsRound
    have hle : p / 100 * b ≤ (b : ℚ) := by
      have hp1 : p / 100 ≤ 1 := (div_le_one (by norm_num : (0:ℚ) < 100)).mpr h1
      calc p / 100 * b ≤ 1 * b := mul_le_mul_of_nonneg_right hp1 (by positivity)
        _ = b := one_mul _
    have hfb : (⌊(b : ℚ) + 1 / 2⌋ : ℤ) = b := by
      rw [Int.floor_eq_iff]
      constructor
      · push_cast; linarith
      · push_cast; linarith
    calc ⌊p / 100 * b + 1 / 2⌋ ≤ ⌊(b : ℚ) + 1 / 2⌋ := Int.floor_le_floor (by linarith)
      _ = b := hfb

lemma sumSeconds_eq_sum (langs : List Language) :
    sumSeconds langs = (langs.map Language.total_seconds).sum := by
  have h : ∀ (a : ℚ) (ls : List Language),
      ls.foldl (fun sum l => sum + l.total_seconds) a =
        a + (ls.map Language.total_seconds).sum := by
    intro a ls
    induction ls generalizing a with
    | nil => simp
    | cons x t ih =>
      simp only [List.foldl_cons, List.map_cons, List.sum_cons, ih]
      ring
  simpa [sumSeconds] using h 0 langs

lemma le_sumSeconds (langs : List Language)
    (hnn : ∀ l ∈ langs, 0 ≤ l.total_seconds) (lang : Language) (h : lang ∈ langs) :
    lang.total_seconds ≤ sumSeconds langs := by
  rw [sumSeconds_eq_sum]
  exact List.single_le_sum (fun q hq => by
      obtain ⟨l, hl, rfl⟩ := List.mem_map.mp hq
      exact hnn l hl)
    _ (List.mem_map.mpr ⟨lang, h, rfl⟩)

lemma displayedPercentage_bounds (stats : WakaTimeStats) (lang : Language)
    (hnn : ∀ l ∈ stats.languages, 0 ≤ l.total_seconds)
    (hS : 0 < sumSeconds stats.languages) (h : lang ∈ stats.languages) :
    0 ≤ displayedPercentage stats lang ∧ displayedPercentage stats lang ≤ 100 := by
  unfold displayedPercentage
  constructor
  · have := hnn lang h
    positivity
  · have hle : lang.total_seconds ≤ sumSeconds stats.languages :=
      le_sumSeconds _ hnn _ h
    have hq : lang.total_seconds / sumSeconds stats.languages ≤ 1 :=
      (div_le_one hS).mpr hle
    nlinarith

/-! ### Claim theorems -/

/-- C1, as stated, is false: a non-empty unrecognized PROGRESS_STYLE makes
the style lookup miss, so createProgressBar has no style at all (the real
program throws a TypeError) instead of using the default glyphs, and a
non-empty unrecognized TIME_RANGE is interpolated verbatim into the stats
URL, which differs from the default range endpoint. -/
theorem C1_counterexample :
    createProgressBar ⟨some "bogus", none⟩ 50 = none
  ∧ createProgressBar envDefault 50 = some "▰▰▰▰▰▰▰▱▱▱▱▱▱▱"
  ∧ getWakaTimeEndpoint (resolveTimeRange ⟨none, some "bogus"⟩) =
      "https://wakatime.com/api/v1/users/current/stats/bogus"
  ∧ getWakaTimeEndpoint (resolveTimeRange envDefault) =
      "https://wakatime.com/api/v1/users/current/stats/last_7_days"
  ∧ ("https://wakatime.com/api/v1/users/current/stats/bogus" : String) ≠
      "https://wakatime.com/api/v1/users/current/stats/last_7_days" :=
  ⟨by with_unfolding_all rfl, by with_unfolding_all rfl, by with_unfolding_all rfl,
   by with_unfolding_all rfl, by decide⟩

/-- C1 (amended): only an unset or empty-string selector falls back to the
documented default (the style key is additionally lowercased first); with
the default in place the bar renderer produces output for every
percentage in [0, 100].  A non-empty unrecognized style key misses
PROGRESS_STYLES and the bar renderer produces nothing (a thrown
TypeError in the real program), and a non-empty unrecognized range value
reaches the endpoint builder verbatim. -/
theorem C1_amended :
    (∀ p : ℚ, 0 ≤ p → p ≤ 100 → createProgressBar envDefault p ≠ none)
  ∧ styleKey ⟨some "", none⟩ = "default"
  ∧ styleKey ⟨some "ARROW", none⟩ = "arrow"
  ∧ resolveTimeRange ⟨none, some ""⟩ = "last_7_days"
  ∧ (∀ env p, PROGRESS_STYLES (styleKey env) = none → createProgressBar env p = none)
  ∧ (∀ env r, env.TIME_RANGE = some r → r ≠ "" →
      getWakaTimeEndpoint (resolveTimeRange env) = getWakaTimeEndpoint r) := by
  have hdef : PROGRESS_STYLES (styleKey envDefault) = some ⟨"▰", "▱", 14⟩ := by
    with_unfolding_all rfl
  refine ⟨?_, by with_unfolding_all rfl, by with_unfolding_all rfl,
    by with_unfolding_all rfl, ?_, ?_⟩
  · intro p h0 h1
    obtain ⟨hb0, hb1⟩ := jsRound_bar_bounds p 14 h0 h1
    simp only [createProgressBar, hdef]
    rw [if_neg (by push_cast at hb0 hb1 ⊢; omega)]
    simp
  · intro env p h
    simp [createProgressBar, h]
  · intro env r hr hne
    simp [resolveTimeRange, jsOrElse, hr, hne]

/-- Witness for C1 (amended) at the concrete selectors "bogus" and the
concrete percentage 50. -/
theorem C1_amended_witness :
    createProgressBar envDefault 50 ≠ none
  ∧ createProgressBar ⟨some "bogus", none⟩ 50 = none
  ∧ getWakaTimeEndpoint (resolveTimeRange ⟨none, some "bogus"⟩) = getWakaTimeEndpoint "bogus" :=
  ⟨C1_amended.1 50 (by norm_num) (by norm_num),
   C1_amended.2.2.2.2.1 ⟨some "bogus", none⟩ 50 (by with_unfolding_all rfl),
   C1_amended.2.2.2.2.2 ⟨none, some "bogus"⟩ "bogus" rfl (by decide)⟩

/-- C2: for a snapshot whose languages sum to S > 0, the percentage the
formatter renders for every displayed entry (the first min(5, N), i.e.
the members of `take 5`) is 100 * total_seconds / S with S the sum over
the FULL list; consequently the displayed percentages need not sum to
100, witnessed by six equal languages where the five shown percentages
sum to 500/6. -/
theorem C2_percentages (stats : WakaTimeStats) (hS : 0 < sumSeconds stats.languages) :
    (∀ lang ∈ stats.languages.take 5,
      displayedPercentage stats lang = 100 * lang.total_seconds / sumSeconds stats.languages)
  ∧ 0 < sumSeconds sixEven.languages
  ∧ ((sixEven.languages.take 5).map (displayedPercentage sixEven)).sum ≠ 100 := by
  refine ⟨?_, by with_unfolding_all decide, by with_unfolding_all decide⟩
  intro lang _
  unfold displayedPercentage
  ring

/-- Witness for C2 on a concrete two-language snapshot. -/
theorem C2_percentages_witness :
    displayedPercentage twoEven ⟨"A", 3600⟩ = 100 * 3600 / sumSeconds twoEven.languages :=
  (C2_percentages twoEven (by norm_num [sumSeconds, twoEven])).1 ⟨"A", 3600⟩
    (by simp [twoEven])

/-- C3: when the WakaTime transport fails, the fetch result is null (not a
propagated error), and the run still completes by writing exactly the
placeholder literal to the filename the locator returned. -/
theorem C3_fetch_failure (env : Env) (transport : String → Except String WakaPayload)
    (msg : String) (oldFilename : String) (file : GistFile)
    (rest : List (String × GistFile))
    (htr : transport (getWakaTimeEndpoint (resolveTimeRange env)) = .error msg)
    (hne : oldFilename ≠ "") :
    fetchWakaTimeStats env transport = none
  ∧ updateGist env none (getGistTitle (resolveTimeRange env)) =
      some ⟨[(getGistTitle (resolveTimeRange env), ⟨none, noStatsPlaceholder⟩)]⟩
  ∧ ∃ renamePatches,
      fetchGistFilename env (.ok ((oldFilename, file) :: rest)) =
        .ok (renamePatches, getGistTitle (resolveTimeRange env))
      ∧ main env transport (.ok ((oldFilename, file) :: rest)) =
          .completed (renamePatches ++
            [⟨[(getGistTitle (resolveTimeRange env), ⟨none, noStatsPlaceholder⟩)]⟩]) := by
  have hfetch : fetchWakaTimeStats env transport = none := by
    simp only [fetchWakaTimeStats]
    rw [htr]
  refine ⟨hfetch, rfl, ?_⟩
  by_cases hold : oldFilename = getGistTitle (resolveTimeRange env)
  · refine ⟨[], ?_, ?_⟩
    · simp [fetchGistFilename, hne, hold, getGistTitle_ne_empty (resolveTimeRange env)]
    · simp [main, fetchGistFilename, hne, hold, hfetch, updateGist,
        getGistTitle_ne_empty (resolveTimeRange env)]
  · refine ⟨[⟨[(oldFilename, ⟨some (getGistTitle (resolveTimeRange env)), file.content⟩)]⟩],
      ?_, ?_⟩
    · simp [fetchGistFilename, hne, hold]
    · simp [main, fetchGistFilename, hne, hold, hfetch, updateGist]

/-- Witness for C3 at a concrete failing transport and one-file gist. -/
theorem C3_fetch_failure_witness :
    fetchWakaTimeStats envDefault (fun _ => .error "network down") = none
  ∧ updateGist envDefault none (getGistTitle (resolveTimeRange envDefault)) =
      some ⟨[(getGistTitle (resolveTimeRange envDefault), ⟨none, noStatsPlaceholder⟩)]⟩
  ∧ ∃ renamePatches,
      fetchGistFilename envDefault (.ok [("stats.md", ⟨"stats.md", "old"⟩)]) =
        .ok (renamePatches, getGistTitle (resolveTimeRange envDefault))
      ∧ main envDefault (fun _ => .error "network down")
            (.ok [("stats.md", ⟨"stats.md", "old"⟩)]) =
          .completed (renamePatches ++
            [⟨[(getGistTitle (resolveTimeRange envDefault), ⟨none, noStatsPlaceholder⟩)]⟩]) :=
  C3_fetch_failure envDefault (fun _ => .error "network down") "network down"
    "stats.md" ⟨"stats.md", "old"⟩ [] rfl (by decide)

/-- C4: a gist GET that returns zero files makes the locator fail with the
NotFound-style message, the error reaches the top-level handler, and no
PATCH at all is issued. -/
theorem C4_empty_gist (env : Env) (transport : String → Except String WakaPayload) :
    fetchGistFilename env (.ok []) = .error "No files found in the gist"
  ∧ main env transport (.ok []) = .failed [] "No files found in the gist" :=
  ⟨rfl, rfl⟩

/-- C5: with a non-empty collection (whose first key, as every gist
filename, is a non-empty string), the locator issues exactly one rename
PATCH when the first filename differs from the resolved title — changing
only the filename while re-sending the existing content — and no PATCH
when it already matches; either way it returns the resolved title. -/
theorem C5_rename_iff (env : Env) (oldFilename : String) (file : GistFile)
    (rest : List (String × GistFile)) (hne : oldFilename ≠ "") :
    (oldFilename ≠ getGistTitle (resolveTimeRange env) →
      fetchGistFilename env (.ok ((oldFilename, file) :: rest)) =
        .ok ([⟨[(oldFilename, ⟨some (getGistTitle (resolveTimeRange env)), file.content⟩)]⟩],
          getGistTitle (resolveTimeRange env)))
  ∧ (oldFilename = getGistTitle (resolveTimeRange env) →
      fetchGistFilename env (.ok ((oldFilename, file) :: rest)) =
        .ok ([], getGistTitle (resolveTimeRange env))) := by
  constructor <;> intro h <;>
    simp [fetchGistFilename, hne, h, getGistTitle_ne_empty (resolveTimeRange env)]

/-- Witness for C5 at a concrete one-file gist whose filename differs from
the resolved title. -/
theorem C5_rename_iff_witness :
    fetchGistFilename envDefault (.ok [("stats.md", ⟨"stats.md", "hello"⟩)]) =
      .ok ([⟨[("stats.md", ⟨some (getGistTitle (resolveTimeRange envDefault)), "hello"⟩)]⟩],
        getGistTitle (resolveTimeRange envDefault)) :=
  (C5_rename_iff envDefault "stats.md" ⟨"stats.md", "hello"⟩ [] (by decide)).1 (by decide)

/-- C6, as stated, is false: padEnd never truncates, so a 16-character
language name makes the formatter line wider than the claimed fixed
10-character name column (formatStatsClaim6 is the formatter with the
truncation the claim describes); the configured style premise is
satisfied by the default configuration. -/
theorem C6_counterexample :
    formatStats envDefault longName ≠ some (formatStatsClaim6 ⟨"▰", "▱", 14⟩ longName)
  ∧ PROGRESS_STYLES (styleKey envDefault) = some ⟨"▰", "▱", 14⟩ :=
  ⟨by with_unfolding_all decide, by with_unfolding_all rfl⟩

/-- C6 (amended): for any resolved style and any snapshot with
non-negative entries and a positive total (the region where the
program's percentage is a real number rather than NaN), formatStats
renders one line per entry for at most the first 5 entries in their
existing order — the name padded with spaces to a width of at least 10
(longer names kept whole), the duration string, the bar, and the
percentage to one decimal — joined by single newlines (formatStatsSpec),
and the number of rendered entries is min(5, N). -/
theorem C6_amended (env : Env) (stats : WakaTimeStats) (st : ProgressStyle)
    (hst : PROGRESS_STYLES (styleKey env) = some st)
    (hnn : ∀ l ∈ stats.languages, 0 ≤ l.total_seconds)
    (hS : 0 < sumSeconds stats.languages) :
    formatStats env stats = some (formatStatsSpec st stats)
  ∧ (stats.languages.take 5).length = min 5 stats.languages.length := by
  constructor
  · unfold formatStats formatStatsSpec
    rw [mapOrThrow_eq_map _ (specLine st stats)]
    · rfl
    · intro lang hmem
      obtain ⟨h0, h1⟩ := displayedPercentage_bounds stats lang hnn hS
        (List.take_subset 5 stats.languages hmem)
      obtain ⟨hb0, hb1⟩ := jsRound_bar_bounds (displayedPercentage stats lang) st.blocks h0 h1
      simp only [createProgressBar, hst, specLine, specBar, Option.map]
      rw [if_neg (by omega)]
  · simp [List.length_take]

/-- Witness for C6 (amended) at the default style and a concrete
snapshot. -/
theorem C6_amended_witness :
    formatStats envDefault twoEven = some (formatStatsSpec ⟨"▰", "▱", 14⟩ twoEven) :=
  (C6_amended envDefault twoEven ⟨"▰", "▱", 14⟩ (by with_unfolding_all rfl)
    (by norm_num [twoEven]) (by norm_num [sumSeconds, twoEven])).1

/-- C7: formatDuration computes integer hours and minutes from the
seconds (discarding the seconds remainder), renders "0 mins" when both
vanish, and otherwise includes the hours part only when non-zero and the
minutes part only when non-zero, space-joined; in particular on 0, 3661
and 60 it gives the three literal results the claim lists. -/
theorem C7_formatDuration (n : ℕ) :
    formatDuration 0 = "0 mins"
  ∧ formatDuration 3661 = "1 hrs 1 mins"
  ∧ formatDuration 60 = "1 mins"
  ∧ formatDuration (n : ℚ) =
      (if n / 3600 = 0 ∧ n % 3600 / 60 = 0 then "0 mins"
       else if n / 3600 = 0 then toString (n % 3600 / 60) ++ " mins"
       else if n % 3600 / 60 = 0 then toString (n / 3600) ++ " hrs"
       else toString (n / 3600) ++ " hrs " ++ toString (n % 3600 / 60) ++ " mins") := by
  refine ⟨by with_unfolding_all rfl, by with_unfolding_all rfl, by with_unfolding_all rfl, ?_⟩
  have hh : ⌊(n : ℚ) / 3600⌋ = ((n / 3600 : ℕ) : ℤ) := by
    exact_mod_cast ratFloorNatDiv n 3600
  have hpos : (0 : ℚ) ≤ (n : ℚ) / 3600 := by positivity
  have htr : jsTrunc ((n : ℚ) / 3600) = ((n / 3600 : ℕ) : ℤ) := by
    unfold jsTrunc
    rw [if_pos hpos]
    exact hh
  have hmod : jsMod (n : ℚ) 3600 = ((n % 3600 : ℕ) : ℚ) := by
    unfold jsMod
    rw [htr]
    have hdm := Nat.div_add_mod n 3600
    have h2 : ((3600 * (n / 3600) + n % 3600 : ℕ) : ℚ) = (n : ℚ) := by
      exact_mod_cast congrArg (fun x : ℕ => (x : ℚ)) hdm
    push_cast at h2
    rw [Int.cast_natCast]
    linarith
  have hm : ⌊jsMod (n : ℚ) 3600 / 60⌋ = ((n % 3600 / 60 : ℕ) : ℤ) := by
    rw [hmod]
    exact_mod_cast ratFloorNatDiv (n % 3600) 60
  simp only [formatDuration, hh, hm]
  by_cases h1 : n / 3600 = 0 <;> by_cases h2 : n % 3600 / 60 = 0
  · -- both zero
    have hrend :
        (if ((n / 3600 : ℕ) : ℤ) = 0 then "" else toString ((n / 3600 : ℕ) : ℤ) ++ " hrs ") ++
          (if ((n % 3600 / 60 : ℕ) : ℤ) = 0 then ""
            else toString ((n % 3600 / 60 : ℕ) : ℤ) ++ " mins") = "" := by
      rw [if_pos (by exact_mod_cast h1), if_pos (by exact_mod_cast h2)]
      rfl
    rw [hrend]
    have htrim : jsTrim "" = "" := rfl
    rw [htrim, if_pos rfl]
    simp [h1, h2]
  · -- hours zero, minutes non-zero
    have hrend :
        (if ((n / 3600 : ℕ) : ℤ) = 0 then "" else toString ((n / 3600 : ℕ) : ℤ) ++ " hrs ") ++
          (if ((n % 3600 / 60 : ℕ) : ℤ) = 0 then ""
            else toString ((n % 3600 / 60 : ℕ) : ℤ) ++ " mins") =
          toString (n % 3600 / 60) ++ " mins" := by
      rw [if_pos (by exact_mod_cast h1), if_neg (by exact_mod_cast h2),
        string_empty_append, toString_intCast_nat]
    rw [hrend, jsTrim_mins _ (natRepr_head_toString _)]
    obtain ⟨c, cs, hc, hw⟩ := headNotWs_append (toString (n % 3600 / 60)) " mins"
      (natRepr_head_toString _)
    rw [if_neg (string_ne_empty _ c cs hc)]
    simp [h1, h2]
  · -- hours non-zero, minutes zero
    have hrend :
        (if ((n / 3600 : ℕ) : ℤ) = 0 then "" else toString ((n / 3600 : ℕ) : ℤ) ++ " hrs ") ++
          (if ((n % 3600 / 60 : ℕ) : ℤ) = 0 then ""
            else toString ((n % 3600 / 60 : ℕ) : ℤ) ++ " mins") =
          toString (n / 3600) ++ " hrs " := by
      rw [if_neg (by exact_mod_cast h1), if_pos (by exact_mod_cast h2),
        string_append_empty, toString_intCast_nat]
    rw [hrend, jsTrim_hrs _ (natRepr_head_toString _)]
    obtain ⟨c, cs, hc, hw⟩ := headNotWs_append (toString (n / 3600)) " hrs"
      (natRepr_head_toString _)
    rw [if_neg (string_ne_empty _ c cs hc)]
    simp [h1, h2]
  · -- both non-zero
    have hrend :
        (if ((n / 3600 : ℕ) : ℤ) = 0 then "" else toString ((n / 3600 : ℕ) : ℤ) ++ " hrs ") ++
          (if ((n % 3600 / 60 : ℕ) : ℤ) = 0 then ""
            else toString ((n % 3600 / 60 : ℕ) : ℤ) ++ " mins") =
          ((toString (n / 3600) ++ " hrs ") ++ toString (n % 3600 / 60)) ++ " mins" := by
      rw [if_neg (by exact_mod_cast h1), if_neg (by exact_mod_cast h2),
        toString_intCast_nat, toString_intCast_nat]
      rw [← string_append_assoc]
    rw [hrend,
      jsTrim_mins _ (headNotWs_append _ _ (headNotWs_append _ _ (natRepr_head_toString _)))]
    obtain ⟨c, cs, hc, hw⟩ := headNotWs_append
      ((toString (n / 3600) ++ " hrs ") ++ toString (n % 3600 / 60)) " mins"
      (headNotWs_append _ _ (headNotWs_append _ _ (natRepr_head_toString _)))
    rw [if_neg (string_ne_empty _ c cs hc)]
    simp [h1, h2]

/-- C8: for any resolved style and percentage p in [0, 100], the bar is
round(p/100 * blocks) filled glyphs followed by empty glyphs for the
remaining blocks (the filled count never exceeds the block count); in
particular p = 0 gives the all-empty bar, p = 100 the all-filled bar, and
p = 50 exactly round(blocks/2) = (blocks+1)/2 filled glyphs. -/
theorem C8_progress_bar (env : Env) (st : ProgressStyle) (p : ℚ)
    (hst : PROGRESS_STYLES (styleKey env) = some st) (h0 : 0 ≤ p) (h1 : p ≤ 100) :
    (∃ k : ℕ, (k : ℤ) = jsRound (p / 100 * st.blocks) ∧ k ≤ st.blocks ∧
      createProgressBar env p =
        some (jsRepeat st.filled k ++ jsRepeat st.empty (st.blocks - k)))
  ∧ createProgressBar env 0 = some (jsRepeat st.empty st.blocks)
  ∧ createProgressBar env 100 = some (jsRepeat st.filled st.blocks)
  ∧ createProgressBar env 50 =
      some (jsRepeat st.filled ((st.blocks + 1) / 2) ++
        jsRepeat st.empty (st.blocks - (st.blocks + 1) / 2)) := by
  obtain ⟨hnn, hub⟩ := jsRound_bar_bounds p st.blocks h0 h1
  refine ⟨⟨(jsRound (p / 100 * st.blocks)).toNat, Int.toNat_of_nonneg hnn,
      Int.toNat_le.mpr hub, by
        simp only [createProgressBar, hst]
        rw [if_neg (by omega)]⟩, ?_, ?_, ?_⟩
  · have h : jsRound ((0 : ℚ) / 100 * st.blocks) = 0 := by
      unfold jsRound
      norm_num [Int.floor_eq_iff]
    simp only [createProgressBar, hst, h]
    rw [if_neg (by omega)]
    simp only [Int.toNat_zero, Nat.sub_zero, jsRepeat]
    rw [string_empty_append]
  · have h : jsRound ((100 : ℚ) / 100 * st.blocks) = (st.blocks : ℤ) := by
      unfold jsRound
      have he : (100 : ℚ) / 100 * st.blocks = st.blocks := by norm_num
      rw [he, Int.floor_eq_iff]
      constructor
      · push_cast; linarith
      · push_cast; linarith
    simp only [createProgressBar, hst, h]
    rw [if_neg (by omega)]
    simp only [Int.toNat_natCast, Nat.sub_self, jsRepeat]
    rw [string_append_empty]
  · have h : jsRound ((50 : ℚ) / 100 * st.blocks) = (((st.blocks + 1) / 2 : ℕ) : ℤ) := by
      unfold jsRound
      have he : (50 : ℚ) / 100 * st.blocks + 1 / 2 = ((st.blocks + 1 : ℕ) : ℚ) / ((2 : ℕ) : ℚ) := by
        push_cast; ring
      rw [he, ratFloorNatDiv]
    simp only [createProgressBar, hst, h]
    rw [if_neg (by push_cast; omega)]
    simp only [Int.toNat_natCast]

/-- Witness for C8 at the default style and p = 100. -/
theorem C8_progress_bar_witness :
    createProgressBar envDefault 100 =
      some (jsRepeat (⟨"▰", "▱", 14⟩ : ProgressStyle).filled
        (⟨"▰", "▱", 14⟩ : ProgressStyle).blocks) :=
  (C8_progress_bar envDefault ⟨"▰", "▱", 14⟩ 100 (by with_unfolding_all rfl)
    (by norm_num) (by norm_num)).2.2.1

/-- C9: with range yesterday the fetch targets the summaries endpoint and
takes the language breakdown of the first summary element; an empty
summaries list yields the empty-language snapshot, not a failure. -/
theorem C9_yesterday (env : Env) (transport : String → Except String WakaPayload)
    (summaries : List WakaTimeStats)
    (hr : resolveTimeRange env = "yesterday")
    (htr : transport (summariesEndpoint "yesterday") = .ok (.summaryData summaries)) :
    getWakaTimeEndpoint (resolveTimeRange env) = summariesEndpoint "yesterday"
  ∧ (summaries = [] → fetchWakaTimeStats env transport = some ⟨[]⟩)
  ∧ (∀ first rest, summaries = first :: rest →
      fetchWakaTimeStats env transport = some ⟨first.languages⟩) := by
  refine ⟨by rw [hr]; rfl, ?_, ?_⟩
  · rintro rfl
    simp only [fetchWakaTimeStats]
    rw [hr]
    simp [getWakaTimeEndpoint, htr]
  · rintro first rest rfl
    simp only [fetchWakaTimeStats]
    rw [hr]
    simp [getWakaTimeEndpoint, htr]

/-- Witness for C9 at an empty concrete summaries response. -/
theorem C9_yesterday_witness :
    getWakaTimeEndpoint (resolveTimeRange ⟨none, some "yesterday"⟩) =
      summariesEndpoint "yesterday"
  ∧ (([] : List WakaTimeStats) = [] →
      fetchWakaTimeStats ⟨none, some "yesterday"⟩
        (fun _ => .ok (.summaryData [])) = some ⟨[]⟩)
  ∧ (∀ first rest, ([] : List WakaTimeStats) = first :: rest →
      fetchWakaTimeStats ⟨none, some "yesterday"⟩
        (fun _ => .ok (.summaryData [])) = some ⟨first.languages⟩) :=
  C9_yesterday ⟨none, some "yesterday"⟩ (fun _ => .ok (.summaryData [])) []
    (by decide) rfl

/-- C10: a successful fetch with an empty language list formats to the
empty string and the gist is overwritten with empty content, which
differs from the placeholder; the placeholder body is produced exactly by
the null-snapshot branch. -/
theorem C10_empty_languages (env : Env) (filename : String) :
    formatStats env ⟨[]⟩ = some ""
  ∧ updateGist env (some ⟨[]⟩) filename = some ⟨[(filename, ⟨none, ""⟩)]⟩
  ∧ updateGist env none filename = some ⟨[(filename, ⟨none, noStatsPlaceholder⟩)]⟩
  ∧ updateGist env (some ⟨[]⟩) filename ≠ updateGist env none filename := by
  refine ⟨rfl, rfl, rfl, ?_⟩
  simp [updateGist, formatStats, mapOrThrow, noStatsPlaceholder, String.intercalate]

end Waka
